import Mathlib

/-!
Verification of the Edugen content-generation backend.

This file gives a shallow embedding of the backend's content-generation
lifecycle: the data model (`projects/models.py`, `users/models.py`), the
request handler (`projects/views.py`), the serializer validation layer
(`projects/serializers.py`), the pure utility functions
(`projects/utils.py`) and the asynchronous generation job
(`projects/tasks.py`).  External collaborators (S3, the LLM API, the
text-to-speech engine, file parsers, the profile table) are modelled as
oracles: `Except`-valued inputs that either produce the collaborator's
answer or raise an exception, exactly at the call sites where the Python
code consults them.  Database writes to the job's own content row are
modelled as the state threaded through the functions.
-/

namespace Edugen

/-- A raised Python exception, identified by its message. -/
inductive Err where
  | msg (s : String)
deriving DecidableEq, Repr

deriving instance DecidableEq for Except

/-- String helpers over the underlying character list (Python `str`
operations used by the backend). -/
def strEndsWith (s suf : String) : Bool := suf.data.isSuffixOf s.data

def strStartsWith (s pre : String) : Bool := pre.data.isPrefixOf s.data

/-- Characters after the last `/`, i.e. `os.path.basename`. -/
def afterLastSlash (l : List Char) : List Char :=
  l.foldl (fun acc c => if c = '/' then [] else acc ++ [c]) []

def basename (p : String) : String := ⟨afterLastSlash p.data⟩

/-- The remainder after the first occurrence of `pat`, i.e. Python
`s.split(pat, 1)[1]` (`none` when `pat` does not occur, where Python
raises `IndexError`). -/
def splitOnceAfter (pat : List Char) : List Char → Option (List Char)
  | [] => none
  | c :: cs =>
    if pat.isPrefixOf (c :: cs) then some (List.drop pat.length (c :: cs))
    else splitOnceAfter pat cs

/-- Python slicing `s[:n]`. -/
def strTake (s : String) (n : Nat) : String := ⟨s.data.take n⟩

/-- The whitespace characters stripped by Python `str.strip()`. -/
def pyWhitespace (c : Char) : Bool :=
  c = ' ' || c = '\t' || c = '\n' || c = '\r' || c = '\x0b' || c = '\x0c'

/-- Python `not s.strip()`: the string is empty or whitespace-only. -/
def isBlank (s : String) : Bool := s.data.all pyWhitespace

/-- A value in a loosely-typed options/request dictionary. -/
inductive OptVal where
  | natV (n : Nat)
  | boolV (b : Bool)
  | strV (s : String)
deriving DecidableEq, Repr

/-- A Python dict used for `request.data` and `validated_data`. -/
abbrev Options := List (String × OptVal)

/-- Python `d.get(key)` (`None` when absent). -/
def optGet (o : Options) (key : String) : Option OptVal :=
  (o.find? (fun p => p.1 = key)).map (·.2)

/-- Python `d.get(key, default)` for an integer-valued option. -/
def optGetNat (o : Options) (key : String) (dflt : Nat) : Nat :=
  match optGet o key with
  | some (.natV n) => n
  | _ => dflt

/-- Python `d.get(key, default)` for a boolean-valued option. -/
def optGetBool (o : Options) (key : String) (dflt : Bool) : Bool :=
  match optGet o key with
  | some (.boolV b) => b
  | _ => dflt

/-- Python `d.get(key, default)` for a string-valued option. -/
def optGetStr (o : Options) (key : String) (dflt : String) : String :=
  match optGet o key with
  | some (.strV s) => s
  | _ => dflt

/-! Cost accounting (`projects/utils.py`, `calculate_cost`) -/

/-- The token usage reported by the LLM API on a completion response. -/
structure Usage where
  prompt_tokens : Nat
  completion_tokens : Nat
deriving DecidableEq, Repr

/-- One entry of `settings.OPENAI_PRICING`: price per input token and per
output token. -/
structure Price where
  input : ℚ
  output : ℚ
deriving DecidableEq, Repr

/-- The per-model price table `settings.OPENAI_PRICING` (the settings
module is configuration, so the table is a parameter of the embedding). -/
abbrev Pricing := String → Option Price

/-- Function `calculate_cost` from `projects/utils.py`: look up the model's price
pair; a missing entry yields zero, otherwise
`prompt_tokens * input + completion_tokens * output`. -/
def calculate_cost (pricing : Pricing) (model_name : String) (usage : Usage) : ℚ :=
  match pricing model_name with
  | none => 0
  | some p =>
      (usage.prompt_tokens : ℚ) * p.input + (usage.completion_tokens : ℚ) * p.output

/-! Data model (`projects/models.py`) -/

/-- Enumeration `GeneratedContent.ContentType`. -/
inductive ContentType where
  | PPT
  | FLASH
  | MCQ
  | POD
deriving DecidableEq, Repr

/-- Enumeration `GeneratedContent.TaskStatus`. -/
inductive TaskStatus where
  | PENDING
  | SUCCESS
  | FAILURE
deriving DecidableEq, Repr

/-- One `GeneratedContent` row. -/
structure ContentRow where
  id : Nat
  projectId : Nat
  content_type : ContentType
  s3_url : Option String
  task_id : Option String
  task_status : TaskStatus
deriving DecidableEq, Repr

/-- The `GeneratedContent` table. -/
abbrev ContentTable := List ContentRow

/-- Whether a row matches the `(project, content_type)` key pair of
`Meta.unique_together`. -/
def keyMatch (p : Nat) (k : ContentType) (r : ContentRow) : Bool :=
  decide (r.projectId = p) && decide (r.content_type = k)

/-- Number of rows for one `(project, content_type)` pair. -/
def countKey (t : ContentTable) (p : Nat) (k : ContentType) : Nat :=
  t.countP (keyMatch p k)

/-- Result of `GeneratedContent.objects.update_or_create`. -/
structure UocResult where
  table : ContentTable
  nextId : Nat
  rowId : Nat
  created : Bool
deriving Repr

/-- Operation `update_or_create(project=..., content_type=..., defaults=...)` as used
by `ProjectViewSet.generate_content`: reset the matching row to `PENDING`
with a cleared URL, or insert a fresh `PENDING` row when none matches. -/
def update_or_create (t : ContentTable) (nid p : Nat) (k : ContentType) : UocResult :=
  match t.find? (keyMatch p k) with
  | some r =>
      ⟨t.map (fun s => if s.id = r.id then { s with task_status := .PENDING, s3_url := none } else s),
       nid, r.id, false⟩
  | none =>
      ⟨t ++ [⟨nid, p, k, none, none, .PENDING⟩], nid + 1, nid, true⟩

/-- A `Project` row (`projects/models.py`). -/
structure Project where
  id : Nat
  userId : Nat
  s3_file_key : String
  original_file_name : Option String
deriving DecidableEq, Repr

/-! S3 download and text extraction (`projects/utils.py`) -/

/-- The key-normalisation step of `download_file_from_s3`: strip a leading
URL down to the key after `.com/` (Python `s3_key.split('.com/',1)[1]`,
which raises `IndexError` when `.com/` is absent). -/
def stripUrlToKey (s3_key : String) : Except Err String :=
  if strStartsWith s3_key "http" then
    match splitOnceAfter ".com/".data s3_key.data with
    | none => .error (.msg "IndexError")
    | some rest => .ok ⟨rest⟩
  else .ok s3_key

/-- Function `download_file_from_s3`: normalise the key, download (the S3 client is
the oracle `dl`) and return the local path `/tmp/downloads/<basename>`. -/
def download_file_from_s3 (s3_key : String) (dl : Except Err Unit) : Except Err String :=
  match stripUrlToKey s3_key with
  | .error e => .error e
  | .ok key =>
      match dl with
      | .error e => .error e
      | .ok _ => .ok ("/tmp/downloads/" ++ basename key)

/-- Function `extract_text_from_file`: dispatch on the file extension.  The three
parsers (PyPDF2, python-docx, plain read) are oracles; the function has a
`try/finally` but no `except` clause, so a parser exception propagates.
Extensions outside the three recognised ones leave `text = ""`. -/
def extract_text_from_file (file_path : String)
    (pdf docx txt : Except Err String) : Except Err String :=
  if strEndsWith file_path ".pdf" then pdf
  else if strEndsWith file_path ".docx" then docx
  else if strEndsWith file_path ".txt" then txt
  else .ok ""

/-! Content generators (`projects/utils.py`) -/

/-- The parsed `slides` list and usage of a successful presentation LLM
call (slide contents are opaque to the lifecycle logic). -/
structure LLMSlides where
  slides : List String
  usage : Usage
deriving Repr

/-- The slide count used by `generate_ppt_from_text` when building its
prompt: `options.get("slide_count", 8)`. -/
def ppt_slide_count (options : Options) : Nat :=
  optGetNat options "slide_count" 8

/-- The prompt `generate_ppt_from_text` sends to the LLM (interpolating
the slide count and the first 8000 characters of the document text). -/
def ppt_prompt (options : Options) (text_content : String) : String :=
  "Based on the following text, create content for EXACTLY " ++
    toString (ppt_slide_count options) ++
    " presentation slides. Return a valid JSON object only, with a single key \"slides\" which is a list of objects. TEXT: ---" ++
    strTake text_content 8000 ++ "---"

/-- Function `generate_ppt_from_text`: call the LLM with the prompt, price the
reported usage, add DALL-E image costs when `include_images` is set
(`generate_image_for_slide` swallows its own failures, returning cost 0,
so each image attempt is an oracle cost), and return the local `.pptx`
path with the accumulated cost. -/
def generate_ppt_from_text (pricing : Pricing) (text_content : String) (options : Options)
    (llm : String → Except Err LLMSlides) (imageCost : Nat → ℚ) :
    Except Err (String × ℚ) :=
  match llm (ppt_prompt options text_content) with
  | .error e => .error e
  | .ok r =>
      let textCost := calculate_cost pricing "gpt-5-nano" r.usage
      let include_images := optGetBool options "include_images" false
      let total :=
        textCost + (if include_images then (((List.range r.slides.length).map imageCost).sum) else 0)
      .ok ("/tmp/presentations/presentation.pptx", total)

/-- The prompt of `generate_flashcards_from_text`, interpolating
`cards_count`, `card_type` and `difficulty` read with their defaults. -/
def flashcards_prompt (options : Options) (text_content : String) : String :=
  "Based on the following text, generate EXACTLY " ++
    toString (optGetNat options "cards_count" 20) ++
    " flashcards. The card type should be " ++ optGetStr options "card_type" "qa" ++
    " and the difficulty should be " ++ optGetStr options "difficulty" "mixed" ++
    ". TEXT: ---" ++ strTake text_content 8000 ++ "---"

/-- Function `generate_flashcards_from_text`: one LLM call, price the usage, write
the parsed JSON to `/tmp/flashcards/flashcards.json`. -/
def generate_flashcards_from_text (pricing : Pricing) (text_content : String)
    (options : Options) (llm : String → Except Err Usage) : Except Err (String × ℚ) :=
  match llm (flashcards_prompt options text_content) with
  | .error e => .error e
  | .ok usage =>
      .ok ("/tmp/flashcards/flashcards.json", calculate_cost pricing "gpt-5-nano" usage)

/-- The prompt of `generate_mcqs_from_text`, interpolating
`questions_count`, `questions_type` and `difficulty`. -/
def mcqs_prompt (options : Options) (text_content : String) : String :=
  "Based on the following text, generate EXACTLY " ++
    toString (optGetNat options "questions_count" 15) ++
    " MCQs. The question type should be " ++ optGetStr options "questions_type" "single_correct" ++
    " and the difficulty should be " ++ optGetStr options "difficulty" "mixed" ++
    ". TEXT: ---" ++ strTake text_content 8000 ++ "---"

/-- Function `generate_mcqs_from_text`: one LLM call, price the usage, write the
parsed JSON to `/tmp/mcqs/mcqs.json`. -/
def generate_mcqs_from_text (pricing : Pricing) (text_content : String)
    (options : Options) (llm : String → Except Err Usage) : Except Err (String × ℚ) :=
  match llm (mcqs_prompt options text_content) with
  | .error e => .error e
  | .ok usage =>
      .ok ("/tmp/mcqs/mcqs.json", calculate_cost pricing "gpt-5-nano" usage)

/-! Podcast audio (`projects/utils.py`,
`generate_podcast_audio_from_script`) -/

/-- The fixed `voice_map` of `generate_podcast_audio_from_script`, keyed
by `(accent, gender, style)`. -/
def voice_map : List ((String × String × String) × String) :=
  [ (("american", "female", "neutral"), "en-US-AriaNeural"),
    (("american", "female", "enthusiastic"), "en-US-JennyNeural"),
    (("american", "female", "formal"), "en-US-SaraNeural"),
    (("american", "female", "conversational"), "en-US-AriaNeural"),
    (("american", "male", "neutral"), "en-US-GuyNeural"),
    (("american", "male", "enthusiastic"), "en-US-BrianNeural"),
    (("american", "male", "formal"), "en-US-DavisNeural"),
    (("american", "male", "conversational"), "en-US-GuyNeural"),
    (("british", "female", "neutral"), "en-GB-SoniaNeural"),
    (("british", "female", "enthusiastic"), "en-GB-LibbyNeural"),
    (("british", "female", "formal"), "en-GB-SoniaNeural"),
    (("british", "female", "conversational"), "en-GB-MaisieNeural"),
    (("british", "male", "neutral"), "en-GB-RyanNeural"),
    (("british", "male", "enthusiastic"), "en-GB-ThomasNeural"),
    (("british", "male", "formal"), "en-GB-RyanNeural"),
    (("british", "male", "conversational"), "en-GB-AlfieNeural"),
    (("indian", "female", "neutral"), "en-IN-NeerjaNeural"),
    (("indian", "female", "enthusiastic"), "en-IN-NeerjaNeural"),
    (("indian", "female", "formal"), "en-IN-NeerjaNeural"),
    (("indian", "female", "conversational"), "en-IN-NeerjaNeural"),
    (("indian", "male", "neutral"), "en-IN-PrabhatNeural"),
    (("indian", "male", "enthusiastic"), "en-IN-PrabhatNeural"),
    (("indian", "male", "formal"), "en-IN-PrabhatNeural"),
    (("indian", "male", "conversational"), "en-IN-PrabhatNeural"),
    (("australian", "female", "neutral"), "en-AU-NatashaNeural"),
    (("australian", "female", "enthusiastic"), "en-AU-NatashaNeural"),
    (("australian", "female", "formal"), "en-AU-NatashaNeural"),
    (("australian", "female", "conversational"), "en-AU-NatashaNeural"),
    (("australian", "male", "neutral"), "en-AU-WilliamNeural"),
    (("australian", "male", "enthusiastic"), "en-AU-WilliamNeural"),
    (("australian", "male", "formal"), "en-AU-WilliamNeural"),
    (("australian", "male", "conversational"), "en-AU-WilliamNeural"),
    (("canadian", "female", "neutral"), "en-CA-ClaraNeural"),
    (("canadian", "female", "enthusiastic"), "en-CA-ClaraNeural"),
    (("canadian", "female", "formal"), "en-CA-ClaraNeural"),
    (("canadian", "female", "conversational"), "en-CA-ClaraNeural"),
    (("canadian", "male", "neutral"), "en-CA-LiamNeural"),
    (("canadian", "male", "enthusiastic"), "en-CA-LiamNeural"),
    (("canadian", "male", "formal"), "en-CA-LiamNeural"),
    (("canadian", "male", "conversational"), "en-CA-LiamNeural") ]

/-- Plain lookup in `voice_map` (Python `dict.get` without default). -/
def voice_map_find (accent gender style : String) : Option String :=
  (voice_map.find? (fun e => e.1 = (accent, gender, style))).map (·.2)

/-- Lookup `voice_map.get((accent, gender, style), "en-US-AriaNeural")`. -/
def voice_lookup (accent gender style : String) : String :=
  (voice_map_find accent gender style).getD "en-US-AriaNeural"

/-- The voice identifier `generate_podcast_audio_from_script` resolves
from its options dict (each option read with its `.get` default). -/
def podcast_voice (options : Options) : String :=
  voice_lookup (optGetStr options "voice_accent" "american")
    (optGetStr options "voice_gender" "female")
    (optGetStr options "voice_style" "neutral")

/-- Function `generate_podcast_audio_from_script`: resolve the voice, synthesize
(the edge-tts engine is the oracle `tts`, consulted with the script and
the resolved voice) and return the output path with the voice used. -/
def generate_podcast_audio_from_script (script_data : String) (options : Options)
    (tts : String → String → Except Err Unit) : Except Err (String × String) :=
  let voice_name := podcast_voice options
  match tts script_data voice_name with
  | .error e => .error e
  | .ok _ => .ok ("/tmp/podcasts/podcast.mp3", voice_name)

/-! Serializer validation (`projects/serializers.py`)

Each DRF serializer validates `request.data` and produces
`validated_data`, a dict whose keys are the declared field names with
declared defaults applied.  `is_valid(raise_exception=True)` turns any
field error into a 400 response. -/

/-- A DRF `ChoiceField` with the given choices; `dflt = none` means the
field is required. -/
def choiceField (d : Options) (key : String) (choices : List String)
    (dflt : Option String) : Except Err String :=
  match optGet d key with
  | some (.strV s) =>
      if s ∈ choices then .ok s else .error (.msg (key ++ ": invalid choice"))
  | some _ => .error (.msg (key ++ ": invalid choice"))
  | none =>
      match dflt with
      | some v => .ok v
      | none => .error (.msg (key ++ ": this field is required"))

/-- A DRF `IntegerField(min_value, max_value, default)`. -/
def intField (d : Options) (key : String) (lo hi dflt : Nat) : Except Err Nat :=
  match optGet d key with
  | some (.natV n) =>
      if lo ≤ n ∧ n ≤ hi then .ok n else .error (.msg (key ++ ": out of range"))
  | some _ => .error (.msg (key ++ ": a valid integer is required"))
  | none => .ok dflt

/-- A DRF `BooleanField(default)`. -/
def boolField (d : Options) (key : String) (dflt : Bool) : Except Err Bool :=
  match optGet d key with
  | some (.boolV b) => .ok b
  | some _ => .error (.msg (key ++ ": must be a valid boolean"))
  | none => .ok dflt

/-- A required DRF `CharField`. -/
def charField (d : Options) (key : String) : Except Err String :=
  match optGet d key with
  | some (.strV s) => .ok s
  | _ => .error (.msg (key ++ ": this field is required"))

/-- Serializer `PresentationGenerateSerializer`: `content_type` restricted to `PPT`,
`slides_count` in 3..20 defaulting to 10, `include_images` defaulting to
false.  Note the emitted key is `slides_count`. -/
def presentationValidate (d : Options) : Except Err Options :=
  match choiceField d "content_type" ["PPT"] none with
  | .error e => .error e
  | .ok ct =>
      match intField d "slides_count" 3 20 10 with
      | .error e => .error e
      | .ok n =>
          match boolField d "include_images" false with
          | .error e => .error e
          | .ok b =>
              .ok [("content_type", .strV ct), ("slides_count", .natV n),
                   ("include_images", .boolV b)]

/-- Serializer `FlashcardGenerateSerializer`. -/
def flashcardValidate (d : Options) : Except Err Options :=
  match choiceField d "content_type" ["FLASH"] none with
  | .error e => .error e
  | .ok ct =>
      match intField d "cards_count" 5 50 20 with
      | .error e => .error e
      | .ok n =>
          match choiceField d "card_type" ["qa", "true_false", "fill_blank"] (some "qa") with
          | .error e => .error e
          | .ok cty =>
              match choiceField d "difficulty" ["easy", "medium", "hard", "mixed"] (some "mixed") with
              | .error e => .error e
              | .ok diff =>
                  .ok [("content_type", .strV ct), ("cards_count", .natV n),
                       ("card_type", .strV cty), ("difficulty", .strV diff)]

/-- Serializer `MCQGenerateSerializer`. -/
def mcqValidate (d : Options) : Except Err Options :=
  match choiceField d "content_type" ["MCQ"] none with
  | .error e => .error e
  | .ok ct =>
      match intField d "questions_count" 5 30 15 with
      | .error e => .error e
      | .ok n =>
          match choiceField d "questions_type" ["single_correct", "multiple_correct", "true_false"] (some "single_correct") with
          | .error e => .error e
          | .ok qty =>
              match choiceField d "difficulty" ["easy", "medium", "hard", "mixed"] (some "mixed") with
              | .error e => .error e
              | .ok diff =>
                  .ok [("content_type", .strV ct), ("questions_count", .natV n),
                       ("questions_type", .strV qty), ("difficulty", .strV diff)]

/-- Serializer `PodcastGenerateSerializer`. -/
def podcastValidate (d : Options) : Except Err Options :=
  match choiceField d "content_type" ["POD"] none with
  | .error e => .error e
  | .ok ct =>
      match choiceField d "podcast_length" ["quick", "medium", "comprehensive"] (some "medium") with
      | .error e => .error e
      | .ok len =>
          match choiceField d "content_focus" ["full_document", "key_concepts", "summary"] (some "full_document") with
          | .error e => .error e
          | .ok foc =>
              match choiceField d "voice_style" ["neutral", "enthusiastic", "formal", "conversational"] (some "neutral") with
              | .error e => .error e
              | .ok sty =>
                  match choiceField d "voice_gender" ["male", "female"] (some "female") with
                  | .error e => .error e
                  | .ok gen =>
                      match choiceField d "voice_accent" ["american", "british", "indian", "australian", "canadian"] (some "american") with
                      | .error e => .error e
                      | .ok acc =>
                          .ok [("content_type", .strV ct), ("podcast_length", .strV len),
                               ("content_focus", .strV foc), ("voice_style", .strV sty),
                               ("voice_gender", .strV gen), ("voice_accent", .strV acc)]

/-! Generation request handler (`projects/views.py`,
`ProjectViewSet.generate_content`) -/

/-- Mapping `ProjectViewSet.serializer_map`: content-type value to the kind and
its serializer. -/
def serializer_map (ct : String) : Option (ContentType × (Options → Except Err Options)) :=
  if ct = "PPT" then some (.PPT, presentationValidate)
  else if ct = "FLASH" then some (.FLASH, flashcardValidate)
  else if ct = "MCQ" then some (.MCQ, mcqValidate)
  else if ct = "POD" then some (.POD, podcastValidate)
  else none

/-- The minimum operating balance checked by the handler
(`user_profile.token_balance < 0.09`). -/
def MIN_BALANCE : ℚ := 9 / 100

/-- The default `token_balance` of a freshly created `UserProfile`. -/
def DEFAULT_BALANCE : ℚ := 5

/-- The persistent state the handler touches: the `GeneratedContent`
table (plus the fresh primary key counter) and the caller's `UserProfile`
row (`none` when no profile row exists yet). -/
structure HandlerState where
  table : ContentTable
  nextId : Nat
  profile : Option ℚ
deriving Repr

/-- The handler's HTTP response. -/
inductive Resp where
  | accepted (taskId : String) (contentId : Nat)
  | badRequest (msg : String)
deriving DecidableEq, Repr

/-- The handler's observable outcome: response, resulting state and the
Celery dispatch (content id and validated options), if any. -/
structure HandlerResult where
  resp : Resp
  state : HandlerState
  dispatched : Option (Nat × Options)
deriving Repr

/-- Handler `ProjectViewSet.generate_content`: get-or-create the profile, reject
below `MIN_BALANCE`, look up the serializer by `content_type`, validate,
upsert the row to `PENDING` with a cleared URL, dispatch the Celery task
and record its id on the row. -/
def generate_content (projectId : Nat) (data : Options) (taskId : String)
    (st : HandlerState) : HandlerResult :=
  let bal := st.profile.getD DEFAULT_BALANCE
  let st1 : HandlerState := { st with profile := some bal }
  if bal < MIN_BALANCE then
    ⟨.badRequest "Insufficient tokens", st1, none⟩
  else
    match (match optGet data "content_type" with
           | some (.strV s) => serializer_map s
           | _ => none) with
    | none => ⟨.badRequest "Invalid content type", st1, none⟩
    | some (kind, validate) =>
        match validate data with
        | .error e => ⟨.badRequest ("validation error: " ++ (match e with | .msg s => s)), st1, none⟩
        | .ok opts =>
            let u := update_or_create st1.table st1.nextId projectId kind
            let t2 := u.table.map
              (fun r => if r.id = u.rowId then { r with task_id := some taskId } else r)
            ⟨.accepted taskId u.rowId, { st1 with table := t2, nextId := u.nextId },
             some (u.rowId, opts)⟩

/-! The generation job (`projects/tasks.py`, `generate_content_task`) -/

/-- The external collaborators the job consults, in pipeline order.  Each
is an `Except` value: the collaborator's answer, or the exception it
raises. -/
structure TaskEnv where
  /-- S3 `delete_object` on the old artifact key. -/
  deleteOld : Except Err Unit
  /-- Call `UserProfile.objects.get_or_create(user=user)`. -/
  getProfile : Except Err Unit
  /-- S3 `download_file` for the project's source blob. -/
  download : Except Err Unit
  /-- PyPDF2 text of the downloaded file. -/
  pdfText : Except Err String
  /-- python-docx text of the downloaded file. -/
  docxText : Except Err String
  /-- plain-read text of the downloaded file. -/
  txtText : Except Err String
  /-- LLM call of `generate_ppt_from_text` (a function of the prompt). -/
  llmPPT : String → Except Err LLMSlides
  /-- LLM call of `generate_flashcards_from_text`. -/
  llmFlash : String → Except Err Usage
  /-- LLM call of `generate_mcqs_from_text`. -/
  llmMCQ : String → Except Err Usage
  /-- DALL-E cost of the i-th slide image (0 when the attempt failed). -/
  imageCost : Nat → ℚ
  /-- Call `user_profile.save()` applying the `F`-expression decrement. -/
  profileSave : Except Err Unit
  /-- S3 `upload_file` of the generated artifact. -/
  upload : Except Err Unit

/-- Step 3 of the job: the `content_type` dispatch over the generation
routines.  `final_file_path` starts as `None` and `total_cost` as 0; the
`PODCAST` branch is commented out in the source, so for `POD` both keep
their initial values and no LLM call is made. -/
def dispatch_generation (pricing : Pricing) (ct : ContentType) (text_content : String)
    (options : Options) (env : TaskEnv) : Except Err (Option String × ℚ) :=
  match ct with
  | .PPT =>
      match generate_ppt_from_text pricing text_content options env.llmPPT env.imageCost with
      | .error e => .error e
      | .ok pc => .ok (some pc.1, pc.2)
  | .FLASH =>
      match generate_flashcards_from_text pricing text_content options env.llmFlash with
      | .error e => .error e
      | .ok pc => .ok (some pc.1, pc.2)
  | .MCQ =>
      match generate_mcqs_from_text pricing text_content options env.llmMCQ with
      | .error e => .error e
      | .ok pc => .ok (some pc.1, pc.2)
  | .POD => .ok (none, 0)

/-- Whether the `content_type` dispatch reaches an LLM call. -/
def dispatch_calls_llm (ct : ContentType) : Bool :=
  decide (ct ≠ .POD)

/-- What the body of the job's `try` block produces: the final S3 URL on
success or the exception raised, together with the balance after any cost
settlement that persisted before the exception, and whether the LLM was
reached. -/
structure PipelineOut where
  result : Except Err String
  balance : ℚ
  llmCalled : Bool

/-- The body of the `try` block of `generate_content_task`: download,
extract, reject blank text, generate by kind, settle a positive cost via
an atomic relative decrement, reject a missing artifact path, upload, and
compute the public URL `https://<bucket>.s3.amazonaws.com/<key>` with
`key = generated/<project id>/<row id>_<basename>`. -/
def runPipeline (pricing : Pricing) (bucket : String) (project : Project)
    (row : ContentRow) (options : Options) (balance : ℚ) (env : TaskEnv) :
    PipelineOut :=
  match download_file_from_s3 project.s3_file_key env.download with
  | .error e => ⟨.error e, balance, false⟩
  | .ok local_file_path =>
      match extract_text_from_file local_file_path env.pdfText env.docxText env.txtText with
      | .error e => ⟨.error e, balance, false⟩
      | .ok text_content =>
          if isBlank text_content then
            ⟨.error (.msg "Extracted text is empty. Cannot generate content."), balance, false⟩
          else
            let llmCalled := dispatch_calls_llm row.content_type
            match dispatch_generation pricing row.content_type text_content options env with
            | .error e => ⟨.error e, balance, llmCalled⟩
            | .ok (final_file_path, total_cost) =>
                match (if 0 < total_cost then
                         match env.profileSave with
                         | .error e => Except.error e
                         | .ok _ => Except.ok (balance - total_cost)
                       else Except.ok balance) with
                | .error e => ⟨.error e, balance, llmCalled⟩
                | .ok balanceAfter =>
                    match final_file_path with
                    | none => ⟨.error (.msg "Content generation failed."), balanceAfter, llmCalled⟩
                    | some fp =>
                        match env.upload with
                        | .error e => ⟨.error e, balanceAfter, llmCalled⟩
                        | .ok _ =>
                            let generated_s3_key :=
                              "generated/" ++ toString project.id ++ "/" ++
                                toString row.id ++ "_" ++ basename fp
                            ⟨.ok ("https://" ++ bucket ++ ".s3.amazonaws.com/" ++ generated_s3_key),
                             balanceAfter, llmCalled⟩

/-- The job's observable outcome: the Celery return value or re-raised
exception, the final content row, the final balance, whether the old blob
was actually deleted, and whether an LLM call was made. -/
structure TaskResult where
  outcome : Except Err String
  row : ContentRow
  balance : ℚ
  deletedOld : Bool
  llmCalled : Bool

/-- Task `generate_content_task`.  In source order: (1) if the row has an old
URL, attempt the S3 delete and swallow any exception; (2) get-or-create
the profile — this happens *before* the `try` block, so an exception here
propagates without touching the row; (3) run the pipeline inside `try`:
on success write `SUCCESS` plus the new URL in one save, on any exception
write `FAILURE` (URL untouched) and re-raise. -/
def generate_content_task (pricing : Pricing) (bucket : String) (project : Project)
    (row : ContentRow) (options : Options) (balance : ℚ) (env : TaskEnv) :
    TaskResult :=
  let deletedOld := row.s3_url.isSome &&
    (match env.deleteOld with | .ok _ => true | .error _ => false)
  match env.getProfile with
  | .error e => ⟨.error e, row, balance, deletedOld, false⟩
  | .ok _ =>
      let p := runPipeline pricing bucket project row options balance env
      match p.result with
      | .error e =>
          ⟨.error e, { row with task_status := .FAILURE }, p.balance, deletedOld, p.llmCalled⟩
      | .ok url =>
          ⟨.ok "Task Completed Successfully",
           { row with s3_url := some url, task_status := .SUCCESS },
           p.balance, deletedOld, p.llmCalled⟩

/-! Theorems about the claims. -/

/-- C5: `calculate_cost` is a pure, deterministic function: for every
model identifier that has a price entry and every usage record it returns
`prompt_tokens × input_price + completion_tokens × output_price`, and for
every model identifier with no price entry it returns zero, for any
usage. -/
theorem calculate_cost_price_table (pricing : Pricing) (m : String) (u : Usage) :
    (∀ p, pricing m = some p →
      calculate_cost pricing m u =
        (u.prompt_tokens : ℚ) * p.input + (u.completion_tokens : ℚ) * p.output) ∧
    (pricing m = none → calculate_cost pricing m u = 0) := by
  constructor
  · intro p hp
    simp [calculate_cost, hp]
  · intro hp
    simp [calculate_cost, hp]

/-- A concrete price table with exactly one entry. -/
def pricingNano : Pricing :=
  fun m => if m = "gpt-5-nano" then some ⟨1 / 1000, 3 / 1000⟩ else none

theorem calculate_cost_price_table_witness :
    calculate_cost pricingNano "gpt-5-nano" ⟨100, 50⟩ =
      (100 : ℚ) * (1 / 1000) + (50 : ℚ) * (3 / 1000) ∧
    calculate_cost pricingNano "some-unknown-model" ⟨100, 50⟩ = 0 := by
  refine ⟨(calculate_cost_price_table pricingNano "gpt-5-nano" ⟨100, 50⟩).1
      ⟨1 / 1000, 3 / 1000⟩ ?_,
    (calculate_cost_price_table pricingNano "some-unknown-model" ⟨100, 50⟩).2 ?_⟩
  · simp [pricingNano]
  · simp [pricingNano]

/-- C8: for every `(accent, gender, style)` voice-option triple supplied
to podcast audio generation, the voice identifier is resolved via the
fixed `voice_map`, and every combination not present in the table
resolves to the default `en-US-AriaNeural` rather than raising. -/
theorem voice_lookup_fallback (a g s : String) :
    (∀ v, voice_map_find a g s = some v →
      podcast_voice [("voice_style", .strV s), ("voice_gender", .strV g),
        ("voice_accent", .strV a)] = v) ∧
    (voice_map_find a g s = none →
      podcast_voice [("voice_style", .strV s), ("voice_gender", .strV g),
        ("voice_accent", .strV a)] = "en-US-AriaNeural") := by
  constructor
  · intro v hv
    simp [podcast_voice, optGetStr, optGet, List.find?, voice_lookup, hv]
  · intro hv
    simp [podcast_voice, optGetStr, optGet, List.find?, voice_lookup, hv]

theorem voice_lookup_fallback_witness :
    podcast_voice [("voice_style", .strV "neutral"), ("voice_gender", .strV "female"),
      ("voice_accent", .strV "french")] = "en-US-AriaNeural" :=
  (voice_lookup_fallback "french" "female" "neutral").2 (by decide)

/-- C9: for every validated presentation generation request, the slide
count used to build the LLM prompt is the default 8, regardless of the
caller-supplied `slides_count` (valid range 3–20): the serializer emits
the option under the key `slides_count` while `generate_ppt_from_text`
reads the key `slide_count`, so the validated option never influences the
prompt. -/
theorem slides_count_key_never_reaches_prompt (d : Options) (opts : Options)
    (hval : presentationValidate d = .ok opts) :
    ppt_slide_count opts = 8 ∧
    (∃ n, optGet opts "slides_count" = some (.natV n)) ∧
    (∀ n, optGet d "slides_count" = some (.natV n) →
      optGet opts "slides_count" = some (.natV n)) ∧
    (∀ text, ppt_prompt opts text = ppt_prompt [] text) := by
  unfold presentationValidate at hval
  cases hct : choiceField d "content_type" ["PPT"] none with
  | error e => rw [hct] at hval; cases hval
  | ok ct =>
      rw [hct] at hval
      cases hn : intField d "slides_count" 3 20 10 with
      | error e => rw [hn] at hval; cases hval
      | ok n =>
          rw [hn] at hval
          cases hb : boolField d "include_images" false with
          | error e => rw [hb] at hval; cases hval
          | ok b =>
              rw [hb] at hval
              injection hval with hopts
              subst hopts
              refine ⟨by simp [ppt_slide_count, optGetNat, optGet, List.find?], ⟨n, by simp [optGet, List.find?]⟩, ?_, ?_⟩
              · intro m hm
                unfold intField at hn
                rw [hm] at hn
                dsimp only at hn
                by_cases hr : 3 ≤ m ∧ m ≤ 20
                · rw [if_pos hr] at hn
                  injection hn with hn
                  subst hn
                  simp [optGet, List.find?]
                · rw [if_neg hr] at hn
                  cases hn
              · intro text
                simp [ppt_prompt, ppt_slide_count, optGetNat, optGet, List.find?]

/-- A list with at most one element satisfying `q` has equal such
elements. -/
theorem countP_le_one_eq {α : Type} (q : α → Bool) (l : List α) :
    l.countP q ≤ 1 → ∀ a, a ∈ l → q a = true → ∀ b, b ∈ l → q b = true → a = b := by
  induction l with
  | nil =>
      intro _ a ha
      cases ha
  | cons x xs ih =>
      intro h a ha hqa b hb hqb
      rw [List.countP_cons] at h
      cases hx : q x with
      | true =>
          rw [hx, if_pos rfl] at h
          have hxs : xs.countP q = 0 := by omega
          have hnone := List.countP_eq_zero.mp hxs
          have hax : a = x := by
            rcases List.mem_cons.mp ha with h1 | h1
            · exact h1
            · exact absurd hqa (hnone a h1)
          have hbx : b = x := by
            rcases List.mem_cons.mp hb with h1 | h1
            · exact h1
            · exact absurd hqb (hnone b h1)
          rw [hax, hbx]
      | false =>
          rw [hx] at h
          simp only [if_neg Bool.false_ne_true] at h
          have ha2 : a ∈ xs := by
            rcases List.mem_cons.mp ha with h1 | h1
            · rw [h1, hx] at hqa; cases hqa
            · exact h1
          have hb2 : b ∈ xs := by
            rcases List.mem_cons.mp hb with h1 | h1
            · rw [h1, hx] at hqb; cases hqb
            · exact h1
          exact ih (by omega) a ha2 hqa b hb2 hqb

/-- C2: at most one `GeneratedContent` row exists per (project, kind); a
repeated generation request for a (project, kind) that already has a row
(including a success row) updates that same row in place — resetting its
status to pending and clearing its URL — and never creates a second row,
so the count for the key is 1 after the upsert. -/
theorem generated_content_unique_per_project_kind (t : ContentTable) (nid p : Nat)
    (k : ContentType) (h : countKey t p k ≤ 1) :
    countKey (update_or_create t nid p k).table p k = 1 ∧
    ∀ r, r ∈ t → keyMatch p k r = true →
      (update_or_create t nid p k).created = false ∧
      (update_or_create t nid p k).rowId = r.id ∧
      (update_or_create t nid p k).table.length = t.length ∧
      { r with task_status := TaskStatus.PENDING, s3_url := none } ∈
        (update_or_create t nid p k).table := by
  unfold countKey at h
  cases hf : t.find? (keyMatch p k) with
  | none =>
      have hnone : ∀ a, a ∈ t → ¬ keyMatch p k a = true := fun a ha =>
        List.find?_eq_none.mp hf a ha
      constructor
      · unfold countKey update_or_create
        rw [hf]
        dsimp only
        rw [List.countP_append]
        have h0 : t.countP (keyMatch p k) = 0 := List.countP_eq_zero.mpr hnone
        rw [h0]
        simp [keyMatch, List.countP_cons]
      · intro r hr hkr
        exact absurd hkr (hnone r hr)
  | some r0 =>
      have hr0mem : r0 ∈ t := List.mem_of_find?_eq_some hf
      have hr0key : keyMatch p k r0 = true := List.find?_some hf
      have hpres : ∀ s,
          keyMatch p k (if s.id = r0.id
            then { s with task_status := TaskStatus.PENDING, s3_url := none }
            else s) = keyMatch p k s := by
        intro s
        by_cases hs : s.id = r0.id
        · simp [hs, keyMatch]
        · simp [hs]
      have hcount :
          (update_or_create t nid p k).table.countP (keyMatch p k) =
            t.countP (keyMatch p k) := by
        unfold update_or_create
        rw [hf]
        dsimp only
        rw [List.countP_map]
        exact List.countP_congr (fun a _ => by simpa using hpres a)
      have hone : t.countP (keyMatch p k) = 1 := by
        have hpos : 0 < t.countP (keyMatch p k) :=
          List.countP_pos_iff.mpr ⟨r0, hr0mem, hr0key⟩
        omega
      constructor
      · unfold countKey
        rw [hcount, hone]
      · intro r hr hkr
        have hreq : r = r0 := countP_le_one_eq (keyMatch p k) t h r hr hkr r0 hr0mem hr0key
        refine ⟨?_, ?_, ?_, ?_⟩
        · unfold update_or_create
          rw [hf]
        · unfold update_or_create
          rw [hf]
          rw [hreq]
        · unfold update_or_create
          rw [hf]
          dsimp only
          exact List.length_map ..
        · unfold update_or_create
          rw [hf]
          dsimp only
          have : ({ r with task_status := TaskStatus.PENDING, s3_url := none } : ContentRow) =
              (if r.id = r0.id then { r with task_status := TaskStatus.PENDING, s3_url := none }
               else r) := by
            rw [if_pos (by rw [hreq])]
          rw [this]
          exact List.mem_map_of_mem _ hr

/-- A concrete table holding one success row for project 7 / kind PPT. -/
def tableOne : ContentTable :=
  [⟨1, 7, .PPT, some "https://bkt.s3.amazonaws.com/generated/7/1_presentation.pptx",
    some "old-task", .SUCCESS⟩]

theorem generated_content_unique_per_project_kind_witness :
    countKey tableOne 7 ContentType.PPT ≤ 1 ∧
    (countKey (update_or_create tableOne 2 7 ContentType.PPT).table 7 ContentType.PPT = 1 ∧
     ∀ r, r ∈ tableOne → keyMatch 7 ContentType.PPT r = true →
       (update_or_create tableOne 2 7 ContentType.PPT).created = false ∧
       (update_or_create tableOne 2 7 ContentType.PPT).rowId = r.id ∧
       (update_or_create tableOne 2 7 ContentType.PPT).table.length = tableOne.length ∧
       { r with task_status := TaskStatus.PENDING, s3_url := none } ∈
         (update_or_create tableOne 2 7 ContentType.PPT).table) :=
  ⟨by decide, generated_content_unique_per_project_kind tableOne 2 7 ContentType.PPT (by decide)⟩

/-- C3: a generation request whose current token balance is strictly
below the 0.09 threshold is rejected with an insufficient-funds error
before any job is dispatched, and no `GeneratedContent` row is created or
mutated. -/
theorem insufficient_balance_rejected_without_mutation (projectId : Nat) (data : Options)
    (taskId : String) (st : HandlerState) (bal : ℚ) (hprof : st.profile = some bal)
    (hbal : bal < MIN_BALANCE) :
    (generate_content projectId data taskId st).resp = .badRequest "Insufficient tokens" ∧
    (generate_content projectId data taskId st).state.table = st.table ∧
    (generate_content projectId data taskId st).state.nextId = st.nextId ∧
    (generate_content projectId data taskId st).dispatched = none := by
  unfold generate_content
  rw [hprof]
  simp only [Option.getD_some]
  rw [if_pos hbal]
  exact ⟨rfl, rfl, rfl, rfl⟩

theorem insufficient_balance_rejected_without_mutation_witness :
    (5 / 100 : ℚ) < MIN_BALANCE ∧
    ((generate_content 7 [("content_type", .strV "PPT")] "tid"
        ⟨tableOne, 2, some (5 / 100)⟩).resp = .badRequest "Insufficient tokens" ∧
     (generate_content 7 [("content_type", .strV "PPT")] "tid"
        ⟨tableOne, 2, some (5 / 100)⟩).state.table = tableOne ∧
     (generate_content 7 [("content_type", .strV "PPT")] "tid"
        ⟨tableOne, 2, some (5 / 100)⟩).state.nextId = 2 ∧
     (generate_content 7 [("content_type", .strV "PPT")] "tid"
        ⟨tableOne, 2, some (5 / 100)⟩).dispatched = none) :=
  ⟨by norm_num [MIN_BALANCE],
   insufficient_balance_rejected_without_mutation 7 [("content_type", .strV "PPT")] "tid"
     ⟨tableOne, 2, some (5 / 100)⟩ (5 / 100) rfl (by norm_num [MIN_BALANCE])⟩

theorem slides_count_key_never_reaches_prompt_witness :
    presentationValidate [("content_type", .strV "PPT"), ("slides_count", .natV 12)] =
      .ok [("content_type", .strV "PPT"), ("slides_count", .natV 12),
        ("include_images", .boolV false)] ∧
    ppt_slide_count [("content_type", .strV "PPT"), ("slides_count", .natV 12),
      ("include_images", .boolV false)] = 8 :=
  ⟨by decide,
    (slides_count_key_never_reaches_prompt
      [("content_type", .strV "PPT"), ("slides_count", .natV 12)]
      [("content_type", .strV "PPT"), ("slides_count", .natV 12),
        ("include_images", .boolV false)] (by decide)).1⟩

/-! Concrete fixtures for witnesses: a price table, a project, rows and
an all-collaborators-succeed environment. -/

/-- A price table with one entry, 1 per prompt token and 2 per
completion token. -/
def pricingGpt : Pricing :=
  fun m => if m = "gpt-5-nano" then some ⟨1, 2⟩ else none

def projX : Project := ⟨3, 9, "uploads/9/doc.pdf", some "doc.pdf"⟩

def rowPPT : ContentRow := ⟨11, 3, .PPT, none, none, .PENDING⟩

def rowPOD : ContentRow := ⟨12, 3, .POD, none, none, .PENDING⟩

/-- An environment where every collaborator succeeds: the PDF parser
yields "hello text" and the LLM reports usage of 10 prompt and 5
completion tokens. -/
def okEnv : TaskEnv where
  deleteOld := .ok ()
  getProfile := .ok ()
  download := .ok ()
  pdfText := .ok "hello text"
  docxText := .ok ""
  txtText := .ok ""
  llmPPT := fun _ => .ok ⟨["s1"], ⟨10, 5⟩⟩
  llmFlash := fun _ => .ok ⟨10, 5⟩
  llmMCQ := fun _ => .ok ⟨10, 5⟩
  imageCost := fun _ => 0
  profileSave := .ok ()
  upload := .ok ()

/-- C1 (counterexample): the profile fetch (step 2) sits *before* the
job's `try` block, so an exception there propagates with the content row
left `PENDING` — no status write happens, contrary to the claim that any
exception in steps 2–7 ends in a `failure` write. -/
theorem profile_fetch_error_leaves_row_pending :
    (generate_content_task pricingGpt "bkt" projX rowPPT [] 5
        { okEnv with getProfile := .error (.msg "profile db error") }).outcome =
      .error (.msg "profile db error") ∧
    (generate_content_task pricingGpt "bkt" projX rowPPT [] 5
        { okEnv with getProfile := .error (.msg "profile db error") }).row.task_status =
      .PENDING ∧
    rowPPT.task_status = .PENDING :=
  ⟨rfl, rfl, rfl⟩

/-- C1 (amended): once the profile fetch (step 2) has succeeded, every
execution of the job ends in a status write: either the pipeline succeeds
and the row is set to `success`, or an exception in steps 3–7 sets the
row to `failure` with the URL left as-is and the exception is re-raised.
An exception in the profile fetch itself instead propagates with the row
untouched, still `pending`. -/
theorem job_terminal_status_after_profile_fetch (pricing : Pricing) (bucket : String)
    (project : Project) (row : ContentRow) (options : Options) (balance : ℚ)
    (env : TaskEnv) :
    (env.getProfile = .ok () →
      ((generate_content_task pricing bucket project row options balance env).outcome =
          .ok "Task Completed Successfully" ∧
       (generate_content_task pricing bucket project row options balance env).row.task_status =
          .SUCCESS) ∨
      ((∃ e, (generate_content_task pricing bucket project row options balance env).outcome =
          .error e) ∧
       (generate_content_task pricing bucket project row options balance env).row.task_status =
          .FAILURE ∧
       (generate_content_task pricing bucket project row options balance env).row.s3_url =
          row.s3_url)) ∧
    (∀ e, env.getProfile = .error e →
      (generate_content_task pricing bucket project row options balance env).outcome =
        .error e ∧
      (generate_content_task pricing bucket project row options balance env).row = row) := by
  constructor
  · intro hprof
    unfold generate_content_task
    rw [hprof]
    dsimp only
    cases hp : (runPipeline pricing bucket project row options balance env).result with
    | error e =>
        right
        exact ⟨⟨e, rfl⟩, rfl, rfl⟩
    | ok url =>
        left
        exact ⟨rfl, rfl⟩
  · intro e hprof
    unfold generate_content_task
    rw [hprof]
    exact ⟨rfl, rfl⟩

theorem job_terminal_status_after_profile_fetch_witness :
    ((generate_content_task pricingGpt "bkt" projX rowPPT [] 5 okEnv).outcome =
        .ok "Task Completed Successfully" ∧
     (generate_content_task pricingGpt "bkt" projX rowPPT [] 5 okEnv).row.task_status =
        .SUCCESS) ∨
    ((∃ e, (generate_content_task pricingGpt "bkt" projX rowPPT [] 5 okEnv).outcome =
        .error e) ∧
     (generate_content_task pricingGpt "bkt" projX rowPPT [] 5 okEnv).row.task_status =
        .FAILURE ∧
     (generate_content_task pricingGpt "bkt" projX rowPPT [] 5 okEnv).row.s3_url =
        rowPPT.s3_url) :=
  (job_terminal_status_after_profile_fetch pricingGpt "bkt" projX rowPPT [] 5 okEnv).1 rfl

/-- C4: for a job whose content row previously had a URL, a failure of
the old-blob deletion step is swallowed and never aborts the job: when
all subsequent pipeline steps succeed the row still ends in `success`
with the new URL, even though the delete of the prior artifact raised. -/
theorem old_blob_delete_failure_does_not_abort (pricing : Pricing) (bucket : String)
    (project : Project) (row : ContentRow) (options : Options) (balance : ℚ)
    (env : TaskEnv) (u : String) (hold : row.s3_url = some u)
    (e0 : Err) (hdel : env.deleteOld = .error e0)
    (hprof : env.getProfile = .ok ())
    (lp : String) (hlp : download_file_from_s3 project.s3_file_key env.download = .ok lp)
    (t : String) (hext : extract_text_from_file lp env.pdfText env.docxText env.txtText = .ok t)
    (hblank : isBlank t = false)
    (fp : String) (cost : ℚ)
    (hgen : dispatch_generation pricing row.content_type t options env = .ok (some fp, cost))
    (hsave : env.profileSave = .ok ())
    (hup : env.upload = .ok ()) :
    (generate_content_task pricing bucket project row options balance env).row.task_status =
      .SUCCESS ∧
    (generate_content_task pricing bucket project row options balance env).row.s3_url =
      some ("https://" ++ bucket ++ ".s3.amazonaws.com/" ++
        ("generated/" ++ toString project.id ++ "/" ++ toString row.id ++ "_" ++ basename fp)) ∧
    (generate_content_task pricing bucket project row options balance env).deletedOld = false := by
  have hpipe :
      runPipeline pricing bucket project row options balance env =
        ⟨.ok ("https://" ++ bucket ++ ".s3.amazonaws.com/" ++
            ("generated/" ++ toString project.id ++ "/" ++ toString row.id ++ "_" ++ basename fp)),
          (if 0 < cost then balance - cost else balance),
          dispatch_calls_llm row.content_type⟩ := by
    unfold runPipeline
    simp only [hlp, hext, hblank, hgen, hsave, hup]
    by_cases h0 : 0 < cost
    · simp [h0]
    · simp [h0]
  unfold generate_content_task
  rw [hprof]
  dsimp only
  rw [hpipe]
  refine ⟨rfl, rfl, ?_⟩
  rw [hold, hdel]
  rfl

/-- An environment where everything succeeds except the S3 delete of the
old artifact. -/
def envDelFail : TaskEnv := { okEnv with deleteOld := .error (.msg "s3 delete failed") }

/-- A row that already carries an artifact URL from a prior success. -/
def rowOldUrl : ContentRow :=
  ⟨11, 3, .PPT, some "https://bkt.s3.amazonaws.com/generated/3/11_old.pptx", none, .PENDING⟩

theorem old_blob_delete_failure_does_not_abort_witness :
    (generate_content_task pricingGpt "bkt" projX rowOldUrl [] 5 envDelFail).row.task_status =
      .SUCCESS ∧
    (generate_content_task pricingGpt "bkt" projX rowOldUrl [] 5 envDelFail).row.s3_url =
      some ("https://" ++ "bkt" ++ ".s3.amazonaws.com/" ++
        ("generated/" ++ toString projX.id ++ "/" ++ toString rowOldUrl.id ++ "_" ++
          basename "/tmp/presentations/presentation.pptx")) ∧
    (generate_content_task pricingGpt "bkt" projX rowOldUrl [] 5 envDelFail).deletedOld = false :=
  old_blob_delete_failure_does_not_abort pricingGpt "bkt" projX rowOldUrl [] 5 envDelFail
    "https://bkt.s3.amazonaws.com/generated/3/11_old.pptx" rfl
    (.msg "s3 delete failed") rfl rfl
    "/tmp/downloads/doc.pdf" (by decide)
    "hello text" (by decide) (by decide)
    "/tmp/presentations/presentation.pptx" 20
    (by
      simp [dispatch_generation, generate_ppt_from_text, envDelFail, okEnv, calculate_cost,
        pricingGpt, optGetBool, optGet, ppt_prompt, rowOldUrl]
      norm_num)
    rfl rfl

/-- C6 (counterexample): the job performs no balance re-check — a job
running with balance 0, strictly below the 0.09 threshold, still reaches
the LLM, completes with `success`, and drives the balance negative. -/
theorem job_with_low_balance_reaches_paid_work :
    (0 : ℚ) < MIN_BALANCE ∧
    (generate_content_task pricingGpt "bkt" projX rowPPT [] 0 okEnv).llmCalled = true ∧
    (generate_content_task pricingGpt "bkt" projX rowPPT [] 0 okEnv).row.task_status =
      .SUCCESS ∧
    (generate_content_task pricingGpt "bkt" projX rowPPT [] 0 okEnv).balance = -20 := by
  have hgen : dispatch_generation pricingGpt ContentType.PPT "hello text" [] okEnv =
      .ok (some "/tmp/presentations/presentation.pptx", 20) := by
    simp [dispatch_generation, generate_ppt_from_text, okEnv, calculate_cost, pricingGpt,
      optGetBool, optGet, ppt_prompt]
    norm_num
  have hpipe : runPipeline pricingGpt "bkt" projX rowPPT [] 0 okEnv =
      ⟨.ok ("https://" ++ "bkt" ++ ".s3.amazonaws.com/" ++
          ("generated/" ++ toString projX.id ++ "/" ++ toString rowPPT.id ++ "_" ++
            basename "/tmp/presentations/presentation.pptx")),
        0 - 20, dispatch_calls_llm ContentType.PPT⟩ := by
    unfold runPipeline
    have hlp : download_file_from_s3 projX.s3_file_key okEnv.download =
        .ok "/tmp/downloads/doc.pdf" := by decide
    have hext : extract_text_from_file "/tmp/downloads/doc.pdf" okEnv.pdfText okEnv.docxText
        okEnv.txtText = .ok "hello text" := by decide
    have hblank : isBlank "hello text" = false := by decide
    have hrow : rowPPT.content_type = ContentType.PPT := rfl
    simp only [hlp, hext, hblank, hrow, hgen]
    norm_num
    rfl
  refine ⟨by norm_num [MIN_BALANCE], ?_, ?_, ?_⟩ <;>
    · unfold generate_content_task
      rw [hpipe]
      norm_num
      rfl

/-- C6 (amended): at the start of every job execution (after
prior-artifact cleanup and before any paid work) the job fetches the
user's profile via an idempotent get-or-create, but it does not repeat
the request-time balance check: a job running with a balance that has
since dropped below the minimum threshold still proceeds to paid work
and completes. -/
theorem job_profile_fetch_without_balance_recheck (pricing : Pricing) (bucket : String)
    (project : Project) (row : ContentRow) (options : Options) (balance : ℚ)
    (env : TaskEnv)
    (hbal : balance < MIN_BALANCE)
    (hprof : env.getProfile = .ok ())
    (lp : String) (hlp : download_file_from_s3 project.s3_file_key env.download = .ok lp)
    (t : String) (hext : extract_text_from_file lp env.pdfText env.docxText env.txtText = .ok t)
    (hblank : isBlank t = false)
    (fp : String) (cost : ℚ)
    (hgen : dispatch_generation pricing row.content_type t options env = .ok (some fp, cost))
    (hcost : 0 < cost)
    (hkind : row.content_type ≠ .POD)
    (hsave : env.profileSave = .ok ())
    (hup : env.upload = .ok ()) :
    (generate_content_task pricing bucket project row options balance env).llmCalled = true ∧
    (generate_content_task pricing bucket project row options balance env).row.task_status =
      .SUCCESS ∧
    (generate_content_task pricing bucket project row options balance env).balance =
      balance - cost := by
  have hpipe :
      runPipeline pricing bucket project row options balance env =
        ⟨.ok ("https://" ++ bucket ++ ".s3.amazonaws.com/" ++
            ("generated/" ++ toString project.id ++ "/" ++ toString row.id ++ "_" ++ basename fp)),
          balance - cost, dispatch_calls_llm row.content_type⟩ := by
    unfold runPipeline
    simp only [hlp, hext, hblank, hgen, hsave, hup]
    simp [hcost]
  unfold generate_content_task
  rw [hprof]
  dsimp only
  rw [hpipe]
  refine ⟨?_, rfl, rfl⟩
  simp [dispatch_calls_llm, hkind]

theorem job_profile_fetch_without_balance_recheck_witness :
    (1 / 100 : ℚ) < MIN_BALANCE ∧
    ((generate_content_task pricingGpt "bkt" projX rowPPT [] (1 / 100) okEnv).llmCalled = true ∧
     (generate_content_task pricingGpt "bkt" projX rowPPT [] (1 / 100) okEnv).row.task_status =
        .SUCCESS ∧
     (generate_content_task pricingGpt "bkt" projX rowPPT [] (1 / 100) okEnv).balance =
        (1 / 100 : ℚ) - 20) :=
  ⟨by norm_num [MIN_BALANCE],
   job_profile_fetch_without_balance_recheck pricingGpt "bkt" projX rowPPT [] (1 / 100) okEnv
     (by norm_num [MIN_BALANCE]) rfl
     "/tmp/downloads/doc.pdf" (by decide)
     "hello text" (by decide) (by decide)
     "/tmp/presentations/presentation.pptx" 20
     (by
       simp [dispatch_generation, generate_ppt_from_text, okEnv, calculate_cost, pricingGpt,
         optGetBool, optGet, ppt_prompt, rowPPT]
       norm_num)
     (by norm_num) (by decide) rfl rfl⟩

/-- C7 (counterexample): `extract_text_from_file` has no `except` clause,
so an internal parser failure on a recognised extension propagates as an
exception instead of yielding the empty string. -/
theorem extract_internal_failure_raises :
    extract_text_from_file "/tmp/downloads/doc.pdf" (.error (.msg "bad pdf")) (.ok "") (.ok "") =
      .error (.msg "bad pdf") ∧
    ∀ s, extract_text_from_file "/tmp/downloads/doc.pdf" (.error (.msg "bad pdf")) (.ok "")
      (.ok "") ≠ .ok s := by
  refine ⟨by decide, ?_⟩
  intro s h
  rw [show extract_text_from_file "/tmp/downloads/doc.pdf" (.error (.msg "bad pdf")) (.ok "")
      (.ok "") = .error (.msg "bad pdf") from by decide] at h
  cases h

/-- C7 (amended): text extraction dispatches by file extension — `.pdf`,
`.docx` and `.txt` files are handed to their parser, and every other
extension yields empty text without raising; an internal parser failure
propagates as an exception rather than yielding empty text; and when the
extracted text is empty or whitespace-only the job terminates in
`failure` without ever calling the AI. -/
theorem extract_dispatch_and_blank_text_fails_job (path : String)
    (pdf docx txt : Except Err String)
    (pricing : Pricing) (bucket : String) (project : Project) (row : ContentRow)
    (options : Options) (balance : ℚ) (env : TaskEnv)
    (hprof : env.getProfile = .ok ())
    (lp : String) (hlp : download_file_from_s3 project.s3_file_key env.download = .ok lp)
    (t : String) (hext : extract_text_from_file lp env.pdfText env.docxText env.txtText = .ok t)
    (hblank : isBlank t = true) :
    (strEndsWith path ".pdf" = true → extract_text_from_file path pdf docx txt = pdf) ∧
    (strEndsWith path ".pdf" = false → strEndsWith path ".docx" = true →
      extract_text_from_file path pdf docx txt = docx) ∧
    (strEndsWith path ".pdf" = false → strEndsWith path ".docx" = false →
      strEndsWith path ".txt" = true → extract_text_from_file path pdf docx txt = txt) ∧
    (strEndsWith path ".pdf" = false → strEndsWith path ".docx" = false →
      strEndsWith path ".txt" = false → extract_text_from_file path pdf docx txt = .ok "") ∧
    ((generate_content_task pricing bucket project row options balance env).row.task_status =
        .FAILURE ∧
     (generate_content_task pricing bucket project row options balance env).outcome =
        .error (.msg "Extracted text is empty. Cannot generate content.") ∧
     (generate_content_task pricing bucket project row options balance env).llmCalled = false) := by
  have hjob :
      (generate_content_task pricing bucket project row options balance env).row.task_status =
          .FAILURE ∧
      (generate_content_task pricing bucket project row options balance env).outcome =
          .error (.msg "Extracted text is empty. Cannot generate content.") ∧
      (generate_content_task pricing bucket project row options balance env).llmCalled = false := by
    have hpipe : runPipeline pricing bucket project row options balance env =
        ⟨.error (.msg "Extracted text is empty. Cannot generate content."), balance, false⟩ := by
      unfold runPipeline
      simp only [hlp, hext, hblank]
      simp
    unfold generate_content_task
    rw [hprof]
    dsimp only
    rw [hpipe]
    exact ⟨rfl, rfl, rfl⟩
  refine ⟨?_, ?_, ?_, ?_, hjob⟩
  · intro h1
    unfold extract_text_from_file
    rw [h1]
    rfl
  · intro h1 h2
    unfold extract_text_from_file
    rw [h1, h2]
    rfl
  · intro h1 h2 h3
    unfold extract_text_from_file
    rw [h1, h2, h3]
    rfl
  · intro h1 h2 h3
    unfold extract_text_from_file
    rw [h1, h2, h3]
    rfl

/-- An environment whose PDF parser yields whitespace-only text. -/
def envBlank : TaskEnv := { okEnv with pdfText := .ok "  \n " }

theorem extract_dispatch_and_blank_text_fails_job_witness :
    (strEndsWith "notes.xyz" ".pdf" = false ∧ strEndsWith "notes.xyz" ".docx" = false ∧
      strEndsWith "notes.xyz" ".txt" = false) ∧
    (extract_text_from_file "notes.xyz" (.error (.msg "unused")) (.error (.msg "unused"))
        (.error (.msg "unused")) = .ok "") ∧
    ((generate_content_task pricingGpt "bkt" projX rowPPT [] 5 envBlank).row.task_status =
        .FAILURE ∧
     (generate_content_task pricingGpt "bkt" projX rowPPT [] 5 envBlank).outcome =
        .error (.msg "Extracted text is empty. Cannot generate content.") ∧
     (generate_content_task pricingGpt "bkt" projX rowPPT [] 5 envBlank).llmCalled = false) := by
  have h := extract_dispatch_and_blank_text_fails_job "notes.xyz"
    (.error (.msg "unused")) (.error (.msg "unused")) (.error (.msg "unused"))
    pricingGpt "bkt" projX rowPPT [] 5 envBlank rfl
    "/tmp/downloads/doc.pdf" (by decide)
    "  \n " (by decide) (by decide)
  exact ⟨⟨by decide, by decide, by decide⟩,
    h.2.2.2.1 (by decide) (by decide) (by decide), h.2.2.2.2⟩

/-- C10: a generation request with content kind podcast submitted through
the generic `generate_content` handler is accepted and a generic job is
dispatched, but that job has no generation branch for the podcast kind
(the branch is commented out), so its generated file path remains unset
and — given non-empty extracted text — the job execution ends with the
content row in `failure`, without any LLM call. -/
theorem podcast_generic_job_always_fails (projectId : Nat) (data : Options) (tid : String)
    (st : HandlerState) (bal : ℚ)
    (hprof : st.profile = some bal) (hbal : ¬ bal < MIN_BALANCE)
    (hct : optGet data "content_type" = some (.strV "POD"))
    (opts : Options) (hval : podcastValidate data = .ok opts)
    (pricing : Pricing) (bucket : String) (project : Project) (row : ContentRow)
    (options : Options) (balance : ℚ) (env : TaskEnv)
    (hrow : row.content_type = .POD)
    (hprof2 : env.getProfile = .ok ())
    (lp : String) (hlp : download_file_from_s3 project.s3_file_key env.download = .ok lp)
    (t : String) (hext : extract_text_from_file lp env.pdfText env.docxText env.txtText = .ok t)
    (hblank : isBlank t = false) :
    ((generate_content projectId data tid st).resp =
        .accepted tid (update_or_create st.table st.nextId projectId .POD).rowId ∧
     (generate_content projectId data tid st).dispatched =
        some ((update_or_create st.table st.nextId projectId .POD).rowId, opts)) ∧
    ((generate_content_task pricing bucket project row options balance env).outcome =
        .error (.msg "Content generation failed.") ∧
     (generate_content_task pricing bucket project row options balance env).row.task_status =
        .FAILURE ∧
     (generate_content_task pricing bucket project row options balance env).llmCalled = false) := by
  constructor
  · unfold generate_content
    rw [hprof]
    simp only [Option.getD_some]
    rw [if_neg hbal, hct]
    dsimp only
    rw [show serializer_map "POD" = some (ContentType.POD, podcastValidate) from by
      simp [serializer_map]]
    dsimp only
    rw [hval]
    exact ⟨rfl, rfl⟩
  · have hpipe : runPipeline pricing bucket project row options balance env =
        ⟨.error (.msg "Content generation failed."), balance, dispatch_calls_llm row.content_type⟩ := by
      unfold runPipeline
      simp only [hlp, hext, hblank]
      simp [dispatch_generation, hrow]
    unfold generate_content_task
    rw [hprof2]
    dsimp only
    rw [hpipe]
    refine ⟨rfl, rfl, ?_⟩
    simp [dispatch_calls_llm, hrow]

theorem podcast_generic_job_always_fails_witness :
    ((generate_content 7 [("content_type", .strV "POD")] "tid" ⟨[], 1, some 5⟩).resp =
        .accepted "tid" (update_or_create ([] : ContentTable) 1 7 .POD).rowId ∧
     (generate_content 7 [("content_type", .strV "POD")] "tid" ⟨[], 1, some 5⟩).dispatched =
        some ((update_or_create ([] : ContentTable) 1 7 .POD).rowId,
          [("content_type", .strV "POD"), ("podcast_length", .strV "medium"),
           ("content_focus", .strV "full_document"), ("voice_style", .strV "neutral"),
           ("voice_gender", .strV "female"), ("voice_accent", .strV "american")])) ∧
    ((generate_content_task pricingGpt "bkt" projX rowPOD [] 5 okEnv).outcome =
        .error (.msg "Content generation failed.") ∧
     (generate_content_task pricingGpt "bkt" projX rowPOD [] 5 okEnv).row.task_status =
        .FAILURE ∧
     (generate_content_task pricingGpt "bkt" projX rowPOD [] 5 okEnv).llmCalled = false) :=
  podcast_generic_job_always_fails 7 [("content_type", .strV "POD")] "tid" ⟨[], 1, some 5⟩ 5
    rfl (by norm_num [MIN_BALANCE]) (by decide)
    [("content_type", .strV "POD"), ("podcast_length", .strV "medium"),
     ("content_focus", .strV "full_document"), ("voice_style", .strV "neutral"),
     ("voice_gender", .strV "female"), ("voice_accent", .strV "american")] (by decide)
    pricingGpt "bkt" projX rowPOD [] 5 okEnv rfl rfl
    "/tmp/downloads/doc.pdf" (by decide)
    "hello text" (by decide) (by decide)

end Edugen
